import Mathlib

/-!
Verification development for the CORD-19 data-explorer dashboard (src/app.py).

The program is a single linear pipeline: load a metadata table, drop rows
without a title, derive a publication year from a date column, apply a
year-range filter and an optional journal filter, and compute aggregates
(row count, year bounds, year histogram, top-10 journal counts, a bag of
title words) for display.

The embedding below follows src/app.py line by line.  Pandas and Python
library behaviour is modelled explicitly:
  - a missing value (NaN/NaT/None) is `Option.none`;
  - `pd.to_datetime(errors=coerce).dt.year` is an abstract year parser
    `parse : String -> Option Int` (unparseable input gives `none`);
  - a pandas comparison `NaN >= x` is `false`, so rows whose
    `publication_year` is absent never satisfy the year-range predicate;
  - `int(nan)` raises `ValueError`; selecting a column that is not in the
    frame raises `KeyError`; both are modelled as `Except.error`;
  - `Series.value_counts()` counts non-null values, keyed in first-encounter
    order, sorted descending by count with ties kept in key order (stable);
  - the regex `\b[a-zA-Z]{3,}\b` (with word characters taken as ASCII
    `[A-Za-z0-9_]`) matches exactly the maximal word-character runs that
    consist solely of letters and have length at least 3.
-/

/-- A raw input row of `metadata.csv`.  Only the three columns the app uses
are modelled; a `none` field is a missing (NaN) cell. -/
structure Row where
  title : Option String
  journal : Option String
  publish_time : Option String
deriving DecidableEq

/-- A raw input table.  `hasJournal` / `hasPublishTime` record whether the
optional `journal` / `publish_time` columns are present in the schema at all
(the app branches on column presence).  The required `title` column is always
present (without it `load_data` fails wholesale and the app stops). -/
structure Table where
  hasJournal : Bool
  hasPublishTime : Bool
  rows : List Row
deriving DecidableEq

/-- A row of the cleaned frame produced by `load_data` (src/app.py lines
26-29): title is now known present; `publication_year` is the derived year
column (`none` = NaN). -/
structure CleanRow where
  title : String
  journal : Option String
  publication_year : Option Int
deriving DecidableEq

/-- The cleaned frame.  `hasPubYear` records whether the derived
`publication_year` column exists (it does exactly when `publish_time` did). -/
structure LoadedTable where
  hasJournal : Bool
  hasPubYear : Bool
  rows : List CleanRow
deriving DecidableEq

/-- Cleaning of one surviving row (src/app.py lines 26-29): the journal cell
is kept when the column exists, and `publication_year` is
`pd.to_datetime(publish_time, errors=coerce).dt.year`, i.e. the parse of the
date string when the column exists and parsing succeeds, `none` otherwise. -/
def mkCleanRow (parse : String → Option Int) (hasJournal hasPublishTime : Bool)
    (r : Row) : CleanRow where
  title := r.title.getD ""
  journal := if hasJournal then r.journal else none
  publication_year := if hasPublishTime then r.publish_time.bind parse else none

/-- src/app.py lines 22-30: `df.dropna(subset=[title])` keeps exactly the rows
whose title is non-null, then the year column is derived. -/
def load_data (parse : String → Option Int) (t : Table) : LoadedTable where
  hasJournal := t.hasJournal
  hasPubYear := t.hasPublishTime
  rows := (t.rows.filter (fun r => r.title.isSome)).map
    (mkCleanRow parse t.hasJournal t.hasPublishTime)

/-- The non-null values of the `publication_year` column
(`df[publication_year].dropna()`). -/
def presentYears (lt : LoadedTable) : List Int :=
  lt.rows.filterMap (fun r => r.publication_year)

/-- `df[publication_year].min()` / `.max()` (src/app.py lines 44-45): pandas
min/max skip NaN; over an all-NaN (empty) column the result is NaN, modelled
as `none`. -/
def yearBounds (lt : LoadedTable) : Option (Int × Int) :=
  match presentYears lt with
  | [] => none
  | y :: ys => some (ys.foldl min y, ys.foldl max y)

/-- src/app.py lines 50-51: `df[(df[publication_year] >= lo) & (df[publication_year] <= hi)]`.
A pandas comparison against NaN is `False`, so a row with absent year is
dropped by the mask. -/
def filterByYear (lt : LoadedTable) (lo hi : Int) : LoadedTable where
  hasJournal := lt.hasJournal
  hasPubYear := lt.hasPubYear
  rows := lt.rows.filter (fun r =>
    match r.publication_year with
    | some y => decide (lo ≤ y ∧ y ≤ hi)
    | none => false)

/-- The slider default (src/app.py line 48): the user range starts as
`(min_year, max_year)`. -/
def defaultSlider (mn mx : Int) : Int × Int := (mn, mx)

/-- src/app.py lines 43-53.  When the `publication_year` column exists the
code runs `int(df[publication_year].min())`; if the column is all NaN the min
is NaN and `int(nan)` raises `ValueError`.  Otherwise the slider (modelled as
a function of the bounds) picks a range and the mask of `filterByYear` is
applied.  Without the column the year filter is bypassed. -/
def yearFilterStage (lt : LoadedTable) (slider : Int → Int → Int × Int) :
    Except String LoadedTable :=
  if lt.hasPubYear then
    match yearBounds lt with
    | none => Except.error "ValueError: cannot convert float NaN to integer"
    | some (mn, mx) =>
      let r := slider mn mx
      Except.ok (filterByYear lt r.1 r.2)
  else
    Except.ok lt

/-- src/app.py lines 56-60: when the journal column exists and a journal
(other than the sentinel All, modelled as `none`) is selected, keep rows whose
journal equals it exactly; a null journal never equals a string. -/
def journalFilterStage (lt : LoadedTable) (choice : Option String) : LoadedTable :=
  if lt.hasJournal then
    match choice with
    | none => lt
    | some j =>
      { lt with rows := lt.rows.filter (fun r => decide (r.journal = some j)) }
  else lt

/-- src/app.py lines 75-76: the sample display evaluates
`filtered_df[[title, journal, publication_year]].head(10)` whenever the
journal column is present, else `filtered_df[[title]].head(10)`.  Selecting a
column that is absent from the frame raises `KeyError`; that happens exactly
when `journal` exists but `publication_year` does not. -/
def sampleData (lt : LoadedTable) : Except String (List CleanRow) :=
  if lt.hasJournal then
    if lt.hasPubYear then Except.ok (lt.rows.take 10)
    else Except.error "KeyError: publication_year not in index"
  else Except.ok (lt.rows.take 10)

/-- A word character of the regex `\b` boundary, restricted to ASCII:
`[A-Za-z0-9_]`. -/
def isWordChar (c : Char) : Bool :=
  c.isAlphanum || c == '_'

/-- An ASCII letter, the char class `[a-zA-Z]` of the regex. -/
def isAsciiLetter (c : Char) : Bool :=
  (('a' ≤ c && c ≤ 'z') || ('A' ≤ c && c ≤ 'Z'))

/-- Python `str.lower()`, characterwise (ASCII-faithful). -/
def lowerString (s : String) : String :=
  String.mk (s.data.map Char.toLower)

/-- Splits a character list into its maximal runs of word characters.
`acc` holds the current run, reversed. -/
def wordRunsAux : List Char → List Char → List (List Char)
  | [], acc => if acc = [] then [] else [acc.reverse]
  | c :: cs, acc =>
    if isWordChar c then wordRunsAux cs (c :: acc)
    else if acc = [] then wordRunsAux cs []
    else acc.reverse :: wordRunsAux cs []

/-- The maximal word-character runs of a string. -/
def wordRuns (s : String) : List (List Char) :=
  wordRunsAux s.data []

/-- src/app.py line 105: `re.findall(r'\b[a-zA-Z]{3,}\b', s)` — the maximal
word-character runs that are all letters and have length at least 3 (a letter
run flanked by a digit or underscore has no word boundary and is not
matched). -/
def findTokens (s : String) : List String :=
  (wordRuns s).filterMap (fun r =>
    if 3 ≤ r.length ∧ r.all isAsciiLetter then some (String.mk r) else none)

/-- src/app.py line 104: `' '.join(filtered_df[title].dropna().astype(str))`;
after `load_data` every title is present, so this is a plain join. -/
def all_titles (lt : LoadedTable) : String :=
  String.intercalate " " (lt.rows.map (fun r => r.title))

/-- src/app.py line 106. -/
def stop_words : List String :=
  ["the", "and", "of", "in", "to", "a", "for", "with", "on"]

/-- src/app.py line 105: the tokens of the lower-cased joined titles. -/
def titleWords (lt : LoadedTable) : List String :=
  findTokens (lowerString (all_titles lt))

/-- src/app.py line 107: `[word for word in words if word not in stop_words]`. -/
def filtered_words (lt : LoadedTable) : List String :=
  (titleWords lt).filter (fun w => decide (w ∉ stop_words))

/-- `WordCloud().generate(text)` raises `ValueError` when it receives no
words; otherwise it produces an image, modelled by the joined text. -/
def generateWordCloud (ws : List String) : Except String String :=
  if ws.isEmpty then
    Except.error "ValueError: we need at least 1 word to plot a word cloud"
  else Except.ok (String.intercalate " " ws)

/-- src/app.py lines 102-114: the word cloud is rendered only when
`filtered_words` is non-empty (`if filtered_words:`); an empty bag skips the
step (`none`) rather than calling the library. -/
def wordcloudRender (lt : LoadedTable) : Except String (Option String) :=
  let fw := filtered_words lt
  if fw.isEmpty then Except.ok none
  else (generateWordCloud fw).map some

/-- Number of occurrences of `a` in `l`. -/
def countVal [DecidableEq α] (l : List α) (a : α) : Nat :=
  (l.filter (fun b => decide (b = a))).length

/-- The distinct values of `l` in order of first occurrence (the key order of
the pandas hashtable backing `value_counts`). -/
def uniqueInOrder [DecidableEq α] : List α → List α
  | [] => []
  | a :: as => a :: (uniqueInOrder as).filter (fun b => decide (b ≠ a))

/-- Index of the first occurrence of `a` in `l` (`l.length` if absent). -/
def firstIdx [DecidableEq α] : List α → α → Nat
  | [], _ => 0
  | b :: bs, a => if b = a then 0 else firstIdx bs a + 1

/-- Insertion into a sorted list: `a` goes in front of the first element `b`
with `le a b`; on a tie (`le` both ways) the inserted element, which came
earlier in the original list, stays in front — the sort below is stable. -/
def insertSortedBy (le : α → α → Bool) (a : α) : List α → List α
  | [] => [a]
  | b :: bs => if le a b then a :: b :: bs else b :: insertSortedBy le a bs

/-- Stable insertion sort w.r.t. `le`. -/
def sortedBy (le : α → α → Bool) (l : List α) : List α :=
  l.foldr (insertSortedBy le) []

/-- Descending-by-count comparison on (value, count) pairs. -/
def leByCountDesc (p q : α × Nat) : Bool :=
  decide (q.2 ≤ p.2)

/-- `Series.value_counts()`: pairs each distinct value (first-encounter key
order) with its occurrence count, then sorts descending by count; ties keep
key order. -/
def value_counts [DecidableEq α] (vals : List α) : List (α × Nat) :=
  sortedBy leByCountDesc ((uniqueInOrder vals).map (fun v => (v, countVal vals v)))

/-- The non-null journal cells of the view, in row order
(`filtered_df[journal]` with NaN dropped by `value_counts`). -/
def journalVals (lt : LoadedTable) : List String :=
  lt.rows.filterMap (fun r => r.journal)

/-- src/app.py line 94: `filtered_df[journal].value_counts().head(10)`. -/
def top_journals (lt : LoadedTable) : List (String × Nat) :=
  (value_counts (journalVals lt)).take 10

/-- Ascending-by-year comparison on (year, count) pairs. -/
def leByYearAsc (p q : Int × Nat) : Bool :=
  decide (p.1 ≤ q.1)

/-- src/app.py line 84: `filtered_df[publication_year].value_counts().sort_index()`
— the count of records per distinct present year, ascending by year. -/
def year_histogram (lt : LoadedTable) : List (Int × Nat) :=
  sortedBy leByYearAsc
    ((uniqueInOrder (presentYears lt)).map (fun y => (y, countVal (presentYears lt) y)))

/-- Everything the page renders, in evaluation order. -/
structure Output where
  totalCount : Nat
  yearRangeDisplay : Option (Int × Int)
  sample : List CleanRow
  hist : Option (List (Int × Nat))
  topJ : Option (List (String × Nat))
  wordcloud : Option String
deriving DecidableEq

/-- The whole page body (src/app.py lines 34-114) in source order: load, year
filter (line 43), journal filter (line 56), overview counts (lines 67-71),
sample table (lines 75-76), year histogram (line 82), top journals (line 92),
word cloud (lines 102-114).  A raised exception aborts the page at that
point. -/
def runPipeline (parse : String → Option Int) (slider : Int → Int → Int × Int)
    (journalChoice : Option String) (t : Table) : Except String Output := do
  let df := load_data parse t
  let fd0 ← yearFilterStage df slider
  let fd := journalFilterStage fd0 journalChoice
  let sample ← sampleData fd
  let wc ← wordcloudRender fd
  pure
    { totalCount := fd.rows.length
      yearRangeDisplay := if fd.hasPubYear then yearBounds fd else none
      sample := sample
      hist := if fd.hasPubYear then some (year_histogram fd) else none
      topJ := if fd.hasJournal then some (top_journals fd) else none
      wordcloud := wc }

/-- A concrete date parser standing in for `pd.to_datetime(...).dt.year` in
the concrete witnesses below. -/
def parse0 (s : String) : Option Int :=
  if s = "2020-01-01" then some 2020
  else if s = "2021-05-05" then some 2021
  else none

/-- Concrete table: title and journal columns present, no `publish_time`. -/
def tNoDate : Table where
  hasJournal := true
  hasPublishTime := false
  rows := [{ title := some "A", journal := some "J", publish_time := none }]

/-- Concrete table: `publish_time` column present but no row parses. -/
def tBadDates : Table where
  hasJournal := false
  hasPublishTime := true
  rows := [{ title := some "A", journal := none, publish_time := some "garbage" }]

/-- Concrete table for the word-bag scenario of the spec. -/
def tScenario : Table where
  hasJournal := false
  hasPublishTime := true
  rows :=
    [{ title := some "Covid and Lungs", journal := none,
       publish_time := some "2020-01-01" },
     { title := some "The Vaccine Study", journal := none,
       publish_time := some "2021-05-05" }]

/-- The word-bag scenario view: the loaded scenario table, year range
covering both records. -/
def scenarioView : LoadedTable :=
  filterByYear (load_data parse0 tScenario) 2019 2022

/-- Membership in an insertion is membership in the tail or equality with the
inserted element. -/
theorem mem_insertSortedBy {α : Type} (le : α → α → Bool) (a x : α) :
    ∀ l : List α, x ∈ insertSortedBy le a l ↔ x = a ∨ x ∈ l := by
  intro l
  induction l with
  | nil => simp [insertSortedBy]
  | cons b bs ih =>
    by_cases hab : le a b = true
    · simp [insertSortedBy, hab]
    · simp only [insertSortedBy, if_neg hab, List.mem_cons, ih]
      tauto

/-- The sort permutes membership. -/
theorem mem_sortedBy {α : Type} (le : α → α → Bool) (x : α) :
    ∀ l : List α, x ∈ sortedBy le l ↔ x ∈ l := by
  intro l
  induction l with
  | nil => simp [sortedBy]
  | cons b bs ih =>
    simp only [sortedBy, List.foldr_cons, List.mem_cons]
    rw [mem_insertSortedBy]
    simp only [sortedBy] at ih
    rw [ih]

/-- Insertion preserves sortedness when `le` is total and transitive. -/
theorem insertSortedBy_pairwise {α : Type} (le : α → α → Bool)
    (htot : ∀ a b, le a b = true ∨ le b a = true)
    (htrans : ∀ a b c, le a b = true → le b c = true → le a c = true) (a : α) :
    ∀ l : List α, l.Pairwise (fun x y => le x y = true) →
      (insertSortedBy le a l).Pairwise (fun x y => le x y = true) := by
  intro l
  induction l with
  | nil => simp [insertSortedBy]
  | cons b bs ih =>
    intro h
    rw [List.pairwise_cons] at h
    by_cases hab : le a b = true
    · simp only [insertSortedBy, if_pos hab]
      rw [List.pairwise_cons]
      refine ⟨?_, List.pairwise_cons.mpr h⟩
      intro x hx
      rcases List.mem_cons.mp hx with rfl | hx
      · exact hab
      · exact htrans a b x hab (h.1 x hx)
    · simp only [insertSortedBy, if_neg hab]
      rw [List.pairwise_cons]
      refine ⟨?_, ih h.2⟩
      intro x hx
      rcases (mem_insertSortedBy le a x bs).mp hx with rfl | hx
      · rcases htot x b with hc | hc
        · exact absurd hc hab
        · exact hc
      · exact h.1 x hx

/-- The sort output is pairwise `le` when `le` is total and transitive. -/
theorem sortedBy_pairwise {α : Type} (le : α → α → Bool)
    (htot : ∀ a b, le a b = true ∨ le b a = true)
    (htrans : ∀ a b c, le a b = true → le b c = true → le a c = true) :
    ∀ l : List α, (sortedBy le l).Pairwise (fun x y => le x y = true) := by
  intro l
  induction l with
  | nil => simp [sortedBy]
  | cons b bs ih =>
    simp only [sortedBy, List.foldr_cons]
    exact insertSortedBy_pairwise le htot htrans b _ ih

/-- Stability of insertion: a relation `S` that holds automatically from a
strict `le`-failure is preserved by inserting an element `S`-below the
whole list. -/
theorem insertSortedBy_stable {α : Type} (le : α → α → Bool) (S : α → α → Prop)
    (hS : ∀ a b, le a b = false → S b a) (a : α) :
    ∀ l : List α, l.Pairwise S → (∀ x ∈ l, S a x) →
      (insertSortedBy le a l).Pairwise S := by
  intro l
  induction l with
  | nil => simp [insertSortedBy]
  | cons b bs ih =>
    intro h ha
    rw [List.pairwise_cons] at h
    by_cases hab : le a b = true
    · simp only [insertSortedBy, if_pos hab]
      rw [List.pairwise_cons]
      exact ⟨ha, List.pairwise_cons.mpr h⟩
    · simp only [insertSortedBy, if_neg hab]
      rw [List.pairwise_cons]
      refine ⟨?_, ih h.2 (fun x hx => ha x (List.mem_cons_of_mem b hx))⟩
      intro x hx
      rcases (mem_insertSortedBy le a x bs).mp hx with rfl | hx
      · exact hS x b (Bool.not_eq_true _ ▸ eq_false_of_ne_true hab)
      · exact h.1 x hx

/-- Stability of the sort: `S` as above survives sorting. -/
theorem sortedBy_stable {α : Type} (le : α → α → Bool) (S : α → α → Prop)
    (hS : ∀ a b, le a b = false → S b a) :
    ∀ l : List α, l.Pairwise S → (sortedBy le l).Pairwise S := by
  intro l
  induction l with
  | nil => simp [sortedBy]
  | cons b bs ih =>
    intro h
    rw [List.pairwise_cons] at h
    simp only [sortedBy, List.foldr_cons]
    refine insertSortedBy_stable le S hS b _ (ih h.2) ?_
    intro x hx
    exact h.1 x ((mem_sortedBy le x bs).mp hx)

/-- The distinct-values list ranges over the values of the input. -/
theorem mem_uniqueInOrder {α : Type} [DecidableEq α] (x : α) :
    ∀ l : List α, x ∈ uniqueInOrder l ↔ x ∈ l := by
  intro l
  induction l with
  | nil => simp [uniqueInOrder]
  | cons a as ih =>
    by_cases hxa : x = a
    · subst hxa
      simp [uniqueInOrder]
    · simp [uniqueInOrder, hxa, ih]

/-- Along `uniqueInOrder l`, the first-occurrence indices in `l` strictly
increase: the distinct values are listed in first-encounter order. -/
theorem uniqueInOrder_firstIdx {α : Type} [DecidableEq α] :
    ∀ l : List α, (uniqueInOrder l).Pairwise (fun a b => firstIdx l a < firstIdx l b) := by
  intro l
  induction l with
  | nil => simp [uniqueInOrder]
  | cons v vs ih =>
    simp only [uniqueInOrder]
    rw [List.pairwise_cons]
    constructor
    · intro b hb
      have hbv : b ≠ v := by
        have := (List.mem_filter.mp hb).2
        simpa using this
      simp [firstIdx, hbv.symm, Ne.symm hbv]
    · refine List.Pairwise.imp_of_mem ?_ (List.Pairwise.filter _ ih)
      intro a b ha hb hab
      have hav : a ≠ v := by
        have := (List.mem_filter.mp ha).2
        simpa using this
      have hbv : b ≠ v := by
        have := (List.mem_filter.mp hb).2
        simpa using this
      simpa [firstIdx, Ne.symm hav, Ne.symm hbv] using Nat.succ_lt_succ hab

/-- Occurrence counting commutes with `filterMap`: the count of `a` among the
extracted values is the number of source elements that extract to `a`. -/
theorem countVal_filterMap {α β : Type} [DecidableEq α] (f : β → Option α)
    (a : α) : ∀ l : List β,
      countVal (l.filterMap f) a = (l.filter (fun b => decide (f b = some a))).length := by
  intro l
  induction l with
  | nil => rfl
  | cons b bs ih =>
    simp only [countVal] at ih ⊢
    cases hfb : f b with
    | none =>
      rw [List.filterMap_cons_none hfb, List.filter_cons]
      simp [hfb, ih]
    | some v =>
      rw [List.filterMap_cons_some hfb, List.filter_cons, List.filter_cons]
      by_cases hva : v = a
      · subst hva
        simp [hfb, ih]
      · simp [hfb, hva, ih]

/-- The descending-count comparison is total. -/
theorem leByCountDesc_total {α : Type} (p q : α × Nat) :
    leByCountDesc p q = true ∨ leByCountDesc q p = true := by
  simp only [leByCountDesc, decide_eq_true_eq]
  omega

/-- The descending-count comparison is transitive. -/
theorem leByCountDesc_trans {α : Type} (p q r : α × Nat) :
    leByCountDesc p q = true → leByCountDesc q r = true → leByCountDesc p r = true := by
  simp only [leByCountDesc, decide_eq_true_eq]
  omega

/-- C5: for every filtered view, `top_journals` (N = 10, src/app.py line 94)
returns at most 10 entries, the entries are sorted descending by record
count, and two entries with equal counts appear in the order in which their
journals are first encountered in the view (strictly increasing index of
first occurrence among the non-null journal cells). -/
theorem C5_top_journals_sorted (lt : LoadedTable) :
    (top_journals lt).length ≤ 10 ∧
    (top_journals lt).Pairwise (fun p q =>
      q.2 ≤ p.2 ∧
      (p.2 = q.2 → firstIdx (journalVals lt) p.1 < firstIdx (journalVals lt) q.1)) := by
  refine ⟨List.length_take_le 10 _, ?_⟩
  have hbase : ((uniqueInOrder (journalVals lt)).map
      (fun v => (v, countVal (journalVals lt) v))).Pairwise
      (fun p q : String × Nat =>
        firstIdx (journalVals lt) p.1 < firstIdx (journalVals lt) q.1) := by
    rw [List.pairwise_map]
    exact uniqueInOrder_firstIdx (journalVals lt)
  have hsorted : (value_counts (journalVals lt)).Pairwise
      (fun p q : String × Nat => q.2 ≤ p.2) := by
    refine List.Pairwise.imp ?_
      (sortedBy_pairwise leByCountDesc leByCountDesc_total leByCountDesc_trans _)
    intro p q hpq
    simpa [leByCountDesc] using hpq
  have hstab : (value_counts (journalVals lt)).Pairwise
      (fun p q : String × Nat =>
        p.2 = q.2 → firstIdx (journalVals lt) p.1 < firstIdx (journalVals lt) q.1) := by
    have hbase2 : ((uniqueInOrder (journalVals lt)).map
        (fun v => (v, countVal (journalVals lt) v))).Pairwise
        (fun p q : String × Nat =>
          p.2 = q.2 → firstIdx (journalVals lt) p.1 < firstIdx (journalVals lt) q.1) := by
      refine List.Pairwise.imp ?_ hbase
      intro a b h heq
      exact h
    refine sortedBy_stable leByCountDesc _ ?_ _ hbase2
    intro a b hab heq
    exfalso
    have : ¬ (b.2 ≤ a.2) := by
      simpa [leByCountDesc] using hab
    omega
  exact List.Pairwise.sublist (List.take_sublist 10 _) (hsorted.and hstab)

/-- C9: every entry of the top-journal list names a non-null journal of some
record of the view, and its count is the number of records of the view whose
journal equals it — records with a null journal are never counted and never
appear (`value_counts` drops NaN). -/
theorem C9_top_journals_nonnull (lt : LoadedTable) (p : String × Nat)
    (hp : p ∈ top_journals lt) :
    (∃ r ∈ lt.rows, r.journal = some p.1) ∧
    p.2 = (lt.rows.filter (fun r => decide (r.journal = some p.1))).length := by
  have h1 : p ∈ value_counts (journalVals lt) :=
    List.mem_of_mem_take hp
  have h2 : p ∈ (uniqueInOrder (journalVals lt)).map
      (fun v => (v, countVal (journalVals lt) v)) :=
    (mem_sortedBy leByCountDesc p ((uniqueInOrder (journalVals lt)).map
      (fun v => (v, countVal (journalVals lt) v)))).mp h1
  rcases List.mem_map.mp h2 with ⟨v, hv, hvp⟩
  have hmem : v ∈ journalVals lt := (mem_uniqueInOrder v _).mp hv
  rcases List.mem_filterMap.mp hmem with ⟨r, hr, hrv⟩
  subst hvp
  constructor
  · exact ⟨r, hr, hrv⟩
  · exact countVal_filterMap (fun r => r.journal) v lt.rows

/-- A record with a present publication year. -/
def rKnown : CleanRow where
  title := "A"
  journal := none
  publication_year := some 2020

/-- A record with an absent (NaN) publication year. -/
def rAbsent : CleanRow where
  title := "B"
  journal := none
  publication_year := none

/-- A loaded view mixing a present-year and an absent-year record. -/
def ltMixed : LoadedTable where
  hasJournal := false
  hasPubYear := true
  rows := [rKnown, rAbsent]

/-- A loaded view whose titles yield only stop words and short tokens. -/
def ltStops : LoadedTable where
  hasJournal := false
  hasPubYear := false
  rows := [{ title := "The and of", journal := none, publication_year := none },
           { title := "a to on ab", journal := none, publication_year := none }]

/-- C2 (amended): records with an absent publication year are excluded from
the year-based computations — every year-histogram entry is a present year of
some record and counts exactly the records carrying that year, and the year
bounds are NaN exactly when no record has a year — and such records are also
excluded from the year-filtered view (the pandas mask `NaN >= lo` is False),
so they are not counted in its total row count. -/
theorem C2_absent_year_records (lt : LoadedTable) (lo hi : Int) :
    (∀ r ∈ (filterByYear lt lo hi).rows,
        ∃ y, r.publication_year = some y ∧ lo ≤ y ∧ y ≤ hi) ∧
    (∀ p ∈ year_histogram lt,
        (∃ r ∈ lt.rows, r.publication_year = some p.1) ∧
        p.2 = (lt.rows.filter (fun r => decide (r.publication_year = some p.1))).length) ∧
    (yearBounds lt = none ↔ ∀ r ∈ lt.rows, r.publication_year = none) := by
  refine ⟨?_, ?_, ?_⟩
  · intro r hr
    have hr2 : r ∈ lt.rows.filter (fun r =>
        match r.publication_year with
        | some y => decide (lo ≤ y ∧ y ≤ hi)
        | none => false) := hr
    have h := (List.mem_filter.mp hr2).2
    cases hy : r.publication_year with
    | none =>
      simp only [hy] at h
      exact absurd h (by simp)
    | some y =>
      simp only [hy] at h
      exact ⟨y, rfl, of_decide_eq_true h⟩
  · intro p hp
    have hp2 : p ∈ (uniqueInOrder (presentYears lt)).map
        (fun y => (y, countVal (presentYears lt) y)) :=
      (mem_sortedBy leByYearAsc p ((uniqueInOrder (presentYears lt)).map
        (fun y => (y, countVal (presentYears lt) y)))).mp hp
    rcases List.mem_map.mp hp2 with ⟨y, hy, hyp⟩
    have hmem : y ∈ presentYears lt := (mem_uniqueInOrder y _).mp hy
    rcases List.mem_filterMap.mp hmem with ⟨r, hr, hry⟩
    subst hyp
    exact ⟨⟨r, hr, hry⟩,
      countVal_filterMap (fun r : CleanRow => r.publication_year) y lt.rows⟩
  · have hiff : yearBounds lt = none ↔ presentYears lt = [] := by
      cases hpy : presentYears lt with
      | nil => simp [yearBounds, hpy]
      | cons y ys => simp [yearBounds, hpy]
    rw [hiff, presentYears, List.filterMap_eq_nil_iff]

/-- C2 counterexample: the claim says absent-year records are retained in the
filtered view and counted in the total; on the code, the absent-year record
`rAbsent` is dropped by the year mask and the total of the filtered view is 1,
not 2. -/
theorem C2_counterexample :
    rAbsent ∈ ltMixed.rows ∧ rAbsent.publication_year = none ∧
    rAbsent ∉ (filterByYear ltMixed 2000 2030).rows ∧
    (filterByYear ltMixed 2000 2030).rows.length = 1 := by
  decide

/-- C2 witness: the amended statement applied to the concrete mixed view. -/
theorem C2_witness :
    (∃ y, rKnown.publication_year = some y ∧ 2000 ≤ y ∧ y ≤ 2030) ∧
    ((∃ r ∈ ltMixed.rows, r.publication_year = some 2020) ∧
      1 = (ltMixed.rows.filter
        (fun r => decide (r.publication_year = some 2020))).length) :=
  ⟨(C2_absent_year_records ltMixed 2000 2030).1 rKnown (by decide),
   (C2_absent_year_records ltMixed 2000 2030).2.1 (2020, 1) (by decide)⟩

/-- C3: a table whose every `publish_time` fails to parse yields an all-NaN
`publication_year` column; the year filter is then not skipped — line 44 of
src/app.py runs `int(nan)` and the page aborts with `ValueError`, contradicting
the claim that the step is skipped with no error. -/
theorem C3_no_parseable_years_crashes :
    ((load_data parse0 tBadDates).rows.map fun r => r.publication_year) = [none] ∧
    runPipeline parse0 defaultSlider none tBadDates
      = Except.error "ValueError: cannot convert float NaN to integer" :=
  ⟨rfl, rfl⟩

/-- C1: with a title column and no `publish_time` column the year filter is
indeed bypassed and the full dataset kept (first two conjuncts), but when a
journal column is present the sample-data display of src/app.py line 75
selects the absent `publication_year` column and the page aborts with
`KeyError`, contradicting the claim that no error is raised downstream. -/
theorem C1_missing_date_column_keyerror :
    yearFilterStage (load_data parse0 tNoDate) defaultSlider
      = Except.ok (load_data parse0 tNoDate) ∧
    journalFilterStage (load_data parse0 tNoDate) none = load_data parse0 tNoDate ∧
    runPipeline parse0 defaultSlider none tNoDate
      = Except.error "KeyError: publication_year not in index" :=
  ⟨rfl, rfl, rfl⟩

/-- C4: every word of the title word bag is a token of at least 3 characters,
all of them ASCII letters, and is none of the stop words; and on the spec
scenario titles (Covid and Lungs / The Vaccine Study, year range covering
both) the bag is exactly covid, lungs, vaccine, study. -/
theorem C4_title_word_bag :
    (∀ lt : LoadedTable, ∀ w ∈ filtered_words lt,
        3 ≤ w.data.length ∧ w.data.all isAsciiLetter = true ∧ w ∉ stop_words) ∧
    filtered_words scenarioView = ["covid", "lungs", "vaccine", "study"] := by
  constructor
  · intro lt w hw
    have hw2 := List.mem_filter.mp hw
    have hnotstop : w ∉ stop_words := of_decide_eq_true hw2.2
    have hw3 : w ∈ (wordRuns (lowerString (all_titles lt))).filterMap (fun r =>
        if 3 ≤ r.length ∧ r.all isAsciiLetter then some (String.mk r) else none) :=
      hw2.1
    rcases List.mem_filterMap.mp hw3 with ⟨r, _, hcond⟩
    by_cases hc : 3 ≤ r.length ∧ r.all isAsciiLetter = true
    · rw [if_pos hc] at hcond
      rcases Option.some.inj hcond with rfl
      exact ⟨hc.1, hc.2, hnotstop⟩
    · rw [if_neg hc] at hcond
      exact absurd hcond (by simp)
  · decide

/-- C4 witness: the bag properties at the concrete scenario word covid. -/
theorem C4_witness :
    3 ≤ "covid".data.length ∧ "covid".data.all isAsciiLetter = true ∧
    "covid" ∉ stop_words :=
  C4_title_word_bag.1 scenarioView "covid" (by decide)

/-- The titles surviving the title dropna, projected back out. -/
theorem filter_titles_map_getD : ∀ l : List Row,
    (l.filter (fun r => r.title.isSome)).map (fun r => r.title.getD "")
      = l.filterMap (fun r => r.title) := by
  intro l
  induction l with
  | nil => rfl
  | cons r rs ih =>
    cases h : r.title with
    | none => simp [List.filter_cons, List.filterMap_cons, h, ih]
    | some s => simp [List.filter_cons, List.filterMap_cons, h, ih]

/-- C6: the loader output consists exactly of the input rows whose title is
non-null — the output title sequence is the sequence of non-null input titles,
and the output row count equals the count of input rows with a non-null
title. -/
theorem C6_load_exactly_titled (parse : String → Option Int) (t : Table) :
    ((load_data parse t).rows.map fun cr => cr.title)
      = t.rows.filterMap (fun r => r.title) ∧
    (load_data parse t).rows.length
      = (t.rows.filter (fun r => r.title.isSome)).length := by
  constructor
  · show ((t.rows.filter (fun r => r.title.isSome)).map
      (mkCleanRow parse t.hasJournal t.hasPublishTime)).map (fun cr => cr.title) = _
    rw [List.map_map]
    exact filter_titles_map_getD t.rows
  · show ((t.rows.filter (fun r => r.title.isSome)).map
      (mkCleanRow parse t.hasJournal t.hasPublishTime)).length = _
    rw [List.length_map]

/-- C7: the derived `publication_year` is `none` whenever `publish_time` is
missing or unparseable, and whenever it carries a year that year comes from a
successfully parsed `publish_time` of an input row — never from a sentinel. -/
theorem C7_year_null_unless_parsed (parse : String → Option Int) (t : Table) :
    (∀ r : Row,
        (r.publish_time = none ∨ ∀ s, r.publish_time = some s → parse s = none) →
        (mkCleanRow parse t.hasJournal t.hasPublishTime r).publication_year = none) ∧
    (∀ cr ∈ (load_data parse t).rows, ∀ y, cr.publication_year = some y →
        ∃ r ∈ t.rows, ∃ s, r.publish_time = some s ∧ parse s = some y) := by
  constructor
  · intro r h
    show (if t.hasPublishTime then r.publish_time.bind parse else none) = none
    cases hpt : t.hasPublishTime with
    | false => simp
    | true =>
      simp only [if_true]
      cases hps : r.publish_time with
      | none => rfl
      | some s =>
        rcases h with h | h
        · rw [hps] at h
          exact absurd h (by simp)
        · simp [hps, h s hps]
  · intro cr hcr y hy
    have hcr2 : cr ∈ (t.rows.filter (fun r => r.title.isSome)).map
        (mkCleanRow parse t.hasJournal t.hasPublishTime) := hcr
    rcases List.mem_map.mp hcr2 with ⟨r, hr, hrc⟩
    have hrmem : r ∈ t.rows := (List.mem_filter.mp hr).1
    subst hrc
    have hy2 : (if t.hasPublishTime then r.publish_time.bind parse else none)
        = some y := hy
    cases hpt : t.hasPublishTime with
    | false =>
      rw [hpt] at hy2
      simp at hy2
    | true =>
      rw [hpt] at hy2
      simp only [if_true] at hy2
      rcases Option.bind_eq_some.mp hy2 with ⟨s, hs, hps⟩
      exact ⟨r, hrmem, s, hs, hps⟩

/-- C7 witness: the two directions at concrete inputs — an unparseable date
gives a null year, and the year 2020 of the scenario view comes from a parsed
date string of the input. -/
theorem C7_witness :
    (mkCleanRow parse0 tBadDates.hasJournal tBadDates.hasPublishTime
        { title := some "A", journal := none, publish_time := some "garbage" }
      ).publication_year = none ∧
    ∃ r ∈ tScenario.rows, ∃ s, r.publish_time = some s ∧ parse0 s = some 2020 :=
  ⟨(C7_year_null_unless_parsed parse0 tBadDates).1
      { title := some "A", journal := none, publish_time := some "garbage" }
      (Or.inr (by intro s hs; cases hs; decide)),
   (C7_year_null_unless_parsed parse0 tScenario).2
      { title := "Covid and Lungs", journal := none, publication_year := some 2020 }
      (by decide) 2020 (by decide)⟩

/-- C8: a vacuous year range (lower bound above upper bound) filters out every
record — the mask `lo <= year <= hi` is unsatisfiable and NaN years never
match either. -/
theorem C8_vacuous_range_empty (lt : LoadedTable) (lo hi : Int) (h : hi < lo) :
    (filterByYear lt lo hi).rows = [] := by
  show lt.rows.filter _ = []
  rw [List.filter_eq_nil_iff]
  intro r _
  cases hy : r.publication_year with
  | none => simp [hy]
  | some y =>
    simp only [hy, decide_eq_true_eq]
    omega

/-- C8 witness: the vacuous range 2025..2020 on the mixed view is empty. -/
theorem C8_witness : (filterByYear ltMixed 2025 2020).rows = [] :=
  C8_vacuous_range_empty ltMixed 2025 2020 (by decide)

/-- C10: when the word bag is empty after stop-word removal, the word-cloud
step is skipped (`if filtered_words:` is falsy) and no error is raised — the
library, which would reject an empty text, is never called. -/
theorem C10_empty_bag_skips_wordcloud (lt : LoadedTable)
    (h : filtered_words lt = []) :
    wordcloudRender lt = Except.ok none := by
  simp [wordcloudRender, h]

/-- C10 witness: a view of only stop words and short tokens skips the word
cloud. -/
theorem C10_witness : wordcloudRender ltStops = Except.ok none :=
  C10_empty_bag_skips_wordcloud ltStops (by decide)

/-- A loaded view with two records of journal J1 and one null-journal record. -/
def ltJournals : LoadedTable where
  hasJournal := true
  hasPubYear := false
  rows := [{ title := "A", journal := some "J1", publication_year := none },
           { title := "B", journal := none, publication_year := none },
           { title := "C", journal := some "J1", publication_year := none }]

/-- C9 witness: on the concrete view, the single top entry is the non-null
journal J1 with count 2 — the null-journal record contributes nothing. -/
theorem C9_witness :
    (∃ r ∈ ltJournals.rows, r.journal = some "J1") ∧
    2 = (ltJournals.rows.filter
      (fun r => decide (r.journal = some "J1"))).length :=
  C9_top_journals_nonnull ltJournals ("J1", 2) (by decide)
